import Mathlib

/-!
Shallow embedding of the erseco/document-converter coordinator
(converter.js: origin gate, request ledger, worker handshake, worker-reply
handler and the window message listener) and of the COI service worker's
staged POST upload slot (coi-serviceworker.js), with theorems about the
cross-context request/response protocol.

JS `Map` objects are encoded as association lists with string keys; the
Emscripten virtual filesystem is encoded the same way (path to byte list).
Messages posted with `source.postMessage` are collected in an outbox list,
messages posted over the worker channel in a separate worker outbox, and
`notifyParent` calls in a parent outbox, so each theorem can speak about
exactly which messages a handler emitted.
-/

namespace DocConverter

/-- Association-list encoding of a JS `Map` with string keys (`Map.get`).
Keys are unique in any list reachable from the empty map via
`jsMapSet` / `jsMapDelete`, matching the `Map` abstraction. -/
def jsMapGet {α : Type} (k : String) : List (String × α) → Option α
  | [] => none
  | (k', v) :: rest => if k' = k then some v else jsMapGet k rest

/-- JS `Map.set`: overwrites the value in place if the key is present,
appends a new entry otherwise. -/
def jsMapSet {α : Type} (k : String) (v : α) : List (String × α) → List (String × α)
  | [] => [(k, v)]
  | (k', v') :: rest => if k' = k then (k, v) :: rest else (k', v') :: jsMapSet k v rest

/-- JS `Map.delete`: removes the entry for the key (on key-unique lists this
removes the single matching entry). -/
def jsMapDelete {α : Type} (k : String) (m : List (String × α)) : List (String × α) :=
  m.filter (fun p => p.1 != k)

/-- Maps output format names to file extensions (converter.js, formatExtensions). -/
def formatExtensions : List (String × String) :=
  [("pdf", "pdf"), ("docx", "docx"), ("xlsx", "xlsx"), ("pptx", "pptx"),
   ("odt", "odt"), ("ods", "ods"), ("odp", "odp"), ("html", "html"),
   ("txt", "txt"), ("rtf", "rtf"), ("png", "png"), ("jpg", "jpg")]

/-- Maps output format names to MIME types (converter.js, mimeTypes). -/
def mimeTypes : List (String × String) :=
  [("pdf", "application/pdf"),
   ("docx", "application/vnd.openxmlformats-officedocument.wordprocessingml.document"),
   ("xlsx", "application/vnd.openxmlformats-officedocument.spreadsheetml.sheet"),
   ("pptx", "application/vnd.openxmlformats-officedocument.presentationml.presentation"),
   ("odt", "application/vnd.oasis.opendocument.text"),
   ("ods", "application/vnd.oasis.opendocument.spreadsheet"),
   ("odp", "application/vnd.oasis.opendocument.presentation"),
   ("html", "text/html"), ("txt", "text/plain"), ("rtf", "application/rtf"),
   ("png", "image/png"), ("jpg", "image/jpeg")]

/-- converter.js `isOriginAllowed`: allow all when no whitelist is configured,
always allow the sentinel "null" origin, otherwise exact-match membership. -/
def isOriginAllowed (allowedOrigins : Option (List String)) (origin : String) : Bool :=
  match allowedOrigins with
  | none => true
  | some whitelist =>
      if origin = "null" then true else whitelist.contains origin

/-- converter.js `getTargetOrigin`: the wildcard target for the sentinel or
absent (falsy, i.e. empty-string) origin, otherwise echo the origin. -/
def getTargetOrigin (eventOrigin : String) : String :=
  if eventOrigin = "null" || eventOrigin = "" then "*" else eventOrigin

/-- A pending-request ledger entry: `{ source, targetOrigin, format }`
stored in `pendingRequests` keyed by requestId. The requester handle
(a `MessageEventSource`) is encoded as a natural number. -/
structure PendingEntry where
  source : Nat
  targetOrigin : String
  format : String
deriving DecidableEq

/-- A `convert` command posted to the worker over `zHM.thrPort`. -/
structure ConvCmd where
  fro : String
  toPath : String
  format : String
  requestId : String
deriving DecidableEq

/-- Payload of a message posted back to a requester via `source.postMessage`.
The requestId field is `Option String`: `none` encodes the JS `undefined`. -/
inductive OutPayload where
  | result (blobBytes : List Nat) (mime : String) (format : String) (requestId : Option String)
  | errorPayload (error : String) (requestId : Option String)
  | pong (ready : Bool) (requestId : Option String)
deriving DecidableEq

/-- Is this payload a `result` message? -/
def isResultPayload : OutPayload → Bool
  | .result _ _ _ _ => true
  | _ => false

/-- Is this payload an `error` message? -/
def isErrorPayload : OutPayload → Bool
  | .errorPayload _ _ => true
  | _ => false

/-- A message posted to a requester: destination handle, the targetOrigin
argument of `postMessage`, and the payload. -/
structure OutMsg where
  dest : Nat
  targetOrigin : String
  payload : OutPayload
deriving DecidableEq

/-- A message sent to the parent window via `notifyParent`. -/
inductive ParentMsg where
  | ready
  | errorNote (error : String)
deriving DecidableEq

/-- A reply arriving from the worker thread on `zHM.thrPort`
(commands `ready`, `converted`, `error`; anything else falls through
the switch). -/
inductive WorkerMsg where
  | ready
  | converted (fro : String) (toPath : String) (format : String) (requestId : String)
  | errorReply (error : String) (requestId : String)
  | other
deriving DecidableEq

/-- Coordinator state: the `moduleReady` flag, whether the engine handle
`zHM` is non-null, the `pendingRequests` ledger, the Emscripten virtual
filesystem, and the three outboxes recording emitted messages. -/
structure ConvState where
  moduleReady : Bool
  hasEngine : Bool
  pendingRequests : List (String × PendingEntry)
  fs : List (String × List Nat)
  outbox : List OutMsg
  parentOutbox : List ParentMsg
  workerOutbox : List ConvCmd
deriving DecidableEq

/-- `zHM.FS.writeFile`. -/
def fsWrite (path : String) (bytes : List Nat) (fs : List (String × List Nat)) :
    List (String × List Nat) :=
  jsMapSet path bytes fs

/-- `zHM.FS.readFile`; `none` encodes the thrown FS error for a missing path. -/
def fsRead (path : String) (fs : List (String × List Nat)) : Option (List Nat) :=
  jsMapGet path fs

/-- `zHM.FS.unlink`; in `handleWorkerMessage` its errors are swallowed. -/
def fsUnlink (path : String) (fs : List (String × List Nat)) : List (String × List Nat) :=
  jsMapDelete path fs

/-- Message text of the exception thrown by `FS.readFile` on a missing
output artifact; the exact text comes from the Emscripten FS layer
(outside this repository), only its presence matters here. -/
def readFileErrorMessage (toPath : String) : String :=
  "FS error: " ++ toPath

/-- converter.js `handleWorkerMessage`: dispatch on the worker reply's `cmd`.
`ready` flips `moduleReady` and notifies the parent; `converted` and `error`
look up the ledger entry, post exactly one terminal message to the registered
source when the entry exists, and delete the entry; replies with an
unregistered requestId fall through the `if (request)` guard unchanged. -/
def handleWorkerMessage (s : ConvState) (m : WorkerMsg) : ConvState :=
  match m with
  | .ready =>
      { s with moduleReady := true, parentOutbox := s.parentOutbox ++ [ParentMsg.ready] }
  | .converted fro toPath format requestId =>
      match jsMapGet requestId s.pendingRequests with
      | none => s
      | some request =>
          match fsRead toPath s.fs with
          | some outputData =>
              let fs1 := fsUnlink toPath (fsUnlink fro s.fs)
              let mimeType := (jsMapGet format mimeTypes).getD "application/octet-stream"
              { s with
                fs := fs1,
                outbox := s.outbox ++
                  [⟨request.source, request.targetOrigin,
                    OutPayload.result outputData mimeType format (some requestId)⟩],
                pendingRequests := jsMapDelete requestId s.pendingRequests }
          | none =>
              { s with
                outbox := s.outbox ++
                  [⟨request.source, request.targetOrigin,
                    OutPayload.errorPayload (readFileErrorMessage toPath) (some requestId)⟩],
                pendingRequests := jsMapDelete requestId s.pendingRequests }
  | .errorReply e requestId =>
      match jsMapGet requestId s.pendingRequests with
      | none => s
      | some request =>
          { s with
            outbox := s.outbox ++
              [⟨request.source, request.targetOrigin,
                OutPayload.errorPayload e (some requestId)⟩],
            pendingRequests := jsMapDelete requestId s.pendingRequests }
  | .other => s

/-- converter.js `isReady`. -/
def isReady (s : ConvState) : Bool :=
  s.moduleReady

/-- converter.js `convertDocument`: throws "ZetaJS not initialized" unless
`moduleReady` and the engine handle are both present; otherwise stages the
input bytes at the fixed path, registers the ledger entry (via `Map.set`),
and posts the `convert` command to the worker. -/
def convertDocument (s : ConvState) (arrayBuffer : List Nat) (outputFormat : String)
    (requestId : String) (source : Nat) (targetOrigin : String) :
    Except String ConvState :=
  if !s.moduleReady || !s.hasEngine then
    Except.error "ZetaJS not initialized"
  else
    let inputData := arrayBuffer
    let inputPath := "/tmp/input"
    let extension := (jsMapGet outputFormat.toLower formatExtensions).getD "pdf"
    let outputPath := "/tmp/output." ++ extension
    let fs1 := fsWrite inputPath inputData s.fs
    let pend1 := jsMapSet requestId ⟨source, targetOrigin, outputFormat⟩ s.pendingRequests
    Except.ok
      { s with
        fs := fs1,
        pendingRequests := pend1,
        workerOutbox := s.workerOutbox ++ [⟨inputPath, outputPath, outputFormat, requestId⟩] }

/-- The document payload found in `data.buffer` / `data.file` of a convert
request, classified by the shape tests the listener performs: `undef` is an
absent property, `falsyVal` any other falsy value (0, empty string, null,
false, NaN), `typedView buf off len` a typed-array view (with its
underlying buffer, byteOffset and view byteLength), `objWithBuffer` any
other object whose `.buffer` is an ArrayBuffer, and `otherTruthy` any
remaining truthy value. -/
inductive JsBuf where
  | undef
  | falsyVal
  | arrayBufferVal (bytes : List Nat)
  | typedView (buf : List Nat) (off : Nat) (len : Nat)
  | objWithBuffer (buf : List Nat)
  | otherTruthy
deriving DecidableEq

/-- JS truthiness of a payload value. -/
def jsTruthy : JsBuf → Bool
  | .undef => false
  | .falsyVal => false
  | _ => true

/-- JS `data.buffer || data.file`. -/
def pickInputBuffer (buffer file : JsBuf) : JsBuf :=
  if jsTruthy buffer then buffer else file

/-- The byte range a typed view covers (`byteOffset` .. `byteOffset + byteLength`). -/
def viewBytes (buf : List Nat) (off len : Nat) : List Nat :=
  (buf.drop off).take len

/-- Listener buffer normalization (converter.js lines 377-392): reject a falsy
payload, accept an ArrayBuffer as-is, take `.buffer` — the ENTIRE underlying
buffer — for a typed view or a buffer-carrying object, reject anything else. -/
def normalizeBuffer (b : JsBuf) : Except String (List Nat) :=
  if !jsTruthy b then
    Except.error "No document buffer provided"
  else
    match b with
    | .arrayBufferVal bytes => Except.ok bytes
    | .typedView buf _ _ => Except.ok buf
    | .objWithBuffer buf => Except.ok buf
    | _ => Except.error "Invalid buffer type: expected ArrayBuffer or TypedArray"

/-- JS `x || dflt` for a string-or-undefined value (empty string is falsy). -/
def jsOrDefault (o : Option String) (dflt : String) : String :=
  match o with
  | none => dflt
  | some s => if s = "" then dflt else s

/-- Fields of an inbound `convert` message the listener inspects. -/
structure ConvertData where
  buffer : JsBuf
  file : JsBuf
  format : Option String
  requestId : Option String
deriving DecidableEq

/-- An inbound window message, dispatched on `data.type`. -/
inductive InboundData where
  | convert (d : ConvertData)
  | ping (requestId : Option String)
  | otherType
deriving DecidableEq

/-- converter.js window `message` listener: origin gate, then the convert
branch (buffer normalization, format/requestId defaulting, `convertDocument`
with its catch posting an error carrying `data.requestId` verbatim) and the
ping branch. `now` stands for `Date.now().toString()`. -/
def handleMessageEvent (whitelist : Option (List String)) (s : ConvState)
    (data : InboundData) (origin : String) (source : Nat) (now : String) : ConvState :=
  if !isOriginAllowed whitelist origin then s
  else
    let targetOrigin := getTargetOrigin origin
    match data with
    | .convert d =>
        match normalizeBuffer (pickInputBuffer d.buffer d.file) with
        | .error e =>
            { s with outbox := s.outbox ++
                [⟨source, targetOrigin, OutPayload.errorPayload e d.requestId⟩] }
        | .ok bytes =>
            let outputFormat := jsOrDefault d.format "pdf"
            let requestId := jsOrDefault d.requestId now
            match convertDocument s bytes outputFormat requestId source targetOrigin with
            | .ok s1 => s1
            | .error e =>
                { s with outbox := s.outbox ++
                    [⟨source, targetOrigin, OutPayload.errorPayload e d.requestId⟩] }
    | .ping rid =>
        { s with outbox := s.outbox ++
            [⟨source, targetOrigin, OutPayload.pong s.moduleReady rid⟩] }
    | .otherType => s

/-- An incoming message on the handshake channel (`zHM.thrPort.onmessage`
inside `setupMessageHandler`): the engine's thread-started signal, or any
other worker message (dispatched to `handleWorkerMessage`). -/
inductive HSIncoming where
  | thrStarted
  | worker (m : WorkerMsg)
deriving DecidableEq

/-- An event on the handshake channel, as a mock channel would record it. -/
inductive ChanEvent where
  | recv (m : HSIncoming)
  | sendRunThrScript
deriving DecidableEq

/-- Channel sends performed by the `setupMessageHandler` onmessage switch for
one incoming message: only the `ZetaHelper::thr_started` case posts the
`ZetaHelper::run_thr_script` directive; the default case dispatches to
`handleWorkerMessage`, which never posts on the channel. -/
def onThrPortMessage : HSIncoming → List ChanEvent
  | .thrStarted => [ChanEvent.sendRunThrScript]
  | .worker _ => []

/-- The channel trace produced by processing a list of incoming messages:
each receipt followed by the sends its handler performs. -/
def channelTrace : List HSIncoming → List ChanEvent
  | [] => []
  | m :: ms => ChanEvent.recv m :: (onThrPortMessage m ++ channelTrace ms)

/-- The staged POST payload captured by the service worker
(coi-serviceworker.js `pendingPostData`). -/
structure PostData where
  buffer : List Nat
  filename : String
  format : String
  download : Bool
  fullscreen : Bool
deriving DecidableEq

/-- The `pendingPostData` assignment performed by `handlePostRequest` on a
valid file: overwrites whatever was staged before. -/
def storePostData (_slot : Option PostData) (p : PostData) : Option PostData :=
  some p

/-- The service worker's `getPostData` message handler: reply with the slot
content (possibly the null marker) and clear the slot. First component is
the `data` field of the posted `postData` reply, second the new slot. -/
def getPostData (slot : Option PostData) : Option PostData × Option PostData :=
  (slot, none)

/-- Does the payload have one of the three accepted shapes (ArrayBuffer,
typed view, object with an ArrayBuffer-valued `.buffer`)? -/
def isAcceptedShape : JsBuf → Bool
  | .arrayBufferVal _ => true
  | .typedView _ _ _ => true
  | .objWithBuffer _ => true
  | _ => false

/-- Ready coordinator state with an empty ledger, used as a concrete
starting point for witnesses. -/
def readyState : ConvState :=
  { moduleReady := true, hasEngine := true, pendingRequests := [],
    fs := [], outbox := [], parentOutbox := [], workerOutbox := [] }

/-- Coordinator state before initialization completed: `moduleReady` is
false and the engine handle is still null. -/
def notReadyState : ConvState :=
  { moduleReady := false, hasEngine := false, pendingRequests := [],
    fs := [], outbox := [], parentOutbox := [], workerOutbox := [] }

/-- Concrete state for the C1 witness: one registered request "r2". -/
def c1State : ConvState :=
  { readyState with pendingRequests := [("r2", ⟨7, "https://a", "pdf"⟩)] }

/-- Concrete state for the C2 witness: an empty ledger but an output
artifact on the filesystem. -/
def c2State : ConvState :=
  { readyState with fs := [("/tmp/output.pdf", [1, 2])] }

theorem jsMapGet_delete_self {α : Type} (k : String) (m : List (String × α)) :
    jsMapGet k (jsMapDelete k m) = none := by
  induction m with
  | nil => rfl
  | cons p rest ih =>
    by_cases h : p.1 = k
    · simpa [jsMapDelete, List.filter_cons, h] using ih
    · simpa [jsMapDelete, List.filter_cons, jsMapGet, h] using ih

theorem jsMapGet_set_self {α : Type} (k : String) (v : α) (m : List (String × α)) :
    jsMapGet k (jsMapSet k v m) = some v := by
  induction m with
  | nil => simp [jsMapSet, jsMapGet]
  | cons p rest ih =>
    by_cases h : p.1 = k
    · simp [jsMapSet, h, jsMapGet]
    · simp [jsMapSet, h, jsMapGet, ih]

/-- `convertDocument` throws "ZetaJS not initialized" whenever the ready
flag is down or the engine handle is null. -/
theorem convertDocument_not_ready (s : ConvState) (bytes : List Nat)
    (fmt rid torigin : String) (src : Nat)
    (h : s.moduleReady = false ∨ s.hasEngine = false) :
    convertDocument s bytes fmt rid src torigin
      = Except.error "ZetaJS not initialized" := by
  rcases h with h | h <;> simp [convertDocument, h]

/-- C6: `isOriginAllowed` returns true for every origin when no whitelist was
configured; returns true for the sentinel origin "null" regardless of any
configured whitelist; and otherwise returns true iff the origin is a member
of the configured whitelist under exact string match. -/
theorem originGate_c6 (whitelist : List String) (origin : String) :
    isOriginAllowed none origin = true
    ∧ isOriginAllowed (some whitelist) "null" = true
    ∧ (origin ≠ "null" →
        (isOriginAllowed (some whitelist) origin = true ↔ origin ∈ whitelist)) := by
  refine ⟨rfl, rfl, fun h => ?_⟩
  simp [isOriginAllowed, h, List.elem_iff]

/-- Witness for C6 at the spec's own test vector: whitelist ["https://a"],
origins "https://a" (allowed), "https://b" (dropped), "null" (allowed). -/
theorem originGate_c6_witness :
    (isOriginAllowed (some ["https://a"]) "https://a" = true
        ↔ ("https://a" : String) ∈ ["https://a"])
    ∧ (isOriginAllowed (some ["https://a"]) "https://b" = true
        ↔ ("https://b" : String) ∈ ["https://a"])
    ∧ isOriginAllowed (some ["https://a"]) "null" = true := by
  exact ⟨(originGate_c6 ["https://a"] "https://a").2.2 (by decide),
    (originGate_c6 ["https://a"] "https://b").2.2 (by decide),
    (originGate_c6 ["https://a"] "null").2.1⟩

/-- C8: the StagedUpload slot is single-slot with single consumption: a pull
returns the currently staged payload and clears the slot; after two stores a
first pull returns the second payload, a second pull returns the absent
marker (null data), never the first payload; and a store while a payload is
staged overwrites it (last-write-wins). -/
theorem stagedUpload_single_slot (s : Option PostData) (p1 p2 : PostData) :
    getPostData (some p1) = (some p1, none)
    ∧ (getPostData (storePostData (storePostData s p1) p2)).1 = some p2
    ∧ (getPostData (getPostData (storePostData (storePostData s p1) p2)).2).1 = none
    ∧ storePostData (some p1) p2 = some p2 :=
  ⟨rfl, rfl, rfl, rfl⟩

/-- C1: when a matching worker reply (`converted` or `error`) is handled for
a requestId registered in the ledger, exactly one terminal message — a
`result` xor an `error` — is posted to the registered source at the
registered targetOrigin, and afterwards the ledger no longer contains that
requestId (no request is resolved twice). -/
theorem requestLedger_resolution_c1 (s : ConvState) (m : WorkerMsg)
    (e fro toPath fmt rid : String) (entry : PendingEntry)
    (hreg : jsMapGet rid s.pendingRequests = some entry)
    (hm : m = WorkerMsg.converted fro toPath fmt rid ∨ m = WorkerMsg.errorReply e rid) :
    ∃ out : OutMsg,
      (handleWorkerMessage s m).outbox = s.outbox ++ [out]
      ∧ out.dest = entry.source
      ∧ out.targetOrigin = entry.targetOrigin
      ∧ (isResultPayload out.payload = true ∨ isErrorPayload out.payload = true)
      ∧ ¬(isResultPayload out.payload = true ∧ isErrorPayload out.payload = true)
      ∧ jsMapGet rid (handleWorkerMessage s m).pendingRequests = none := by
  rcases hm with hm | hm <;> subst hm
  · cases hfs : fsRead toPath s.fs with
    | some outputData =>
        refine ⟨⟨entry.source, entry.targetOrigin,
          OutPayload.result outputData ((jsMapGet fmt mimeTypes).getD
            "application/octet-stream") fmt (some rid)⟩, ?_, rfl, rfl, ?_, ?_, ?_⟩
        · simp [handleWorkerMessage, hreg, hfs]
        · exact Or.inl rfl
        · simp [isResultPayload, isErrorPayload]
        · simp [handleWorkerMessage, hreg, hfs, jsMapGet_delete_self]
    | none =>
        refine ⟨⟨entry.source, entry.targetOrigin,
          OutPayload.errorPayload (readFileErrorMessage toPath) (some rid)⟩,
          ?_, rfl, rfl, ?_, ?_, ?_⟩
        · simp [handleWorkerMessage, hreg, hfs]
        · exact Or.inr rfl
        · simp [isResultPayload, isErrorPayload]
        · simp [handleWorkerMessage, hreg, hfs, jsMapGet_delete_self]
  · refine ⟨⟨entry.source, entry.targetOrigin, OutPayload.errorPayload e (some rid)⟩,
      ?_, rfl, rfl, ?_, ?_, ?_⟩
    · simp [handleWorkerMessage, hreg]
    · exact Or.inr rfl
    · simp [isResultPayload, isErrorPayload]
    · simp [handleWorkerMessage, hreg, jsMapGet_delete_self]

/-- Witness for C1: resolving the registered request "r2" with a worker
`error` reply delivers exactly one terminal message and clears the ledger. -/
theorem requestLedger_resolution_c1_witness :
    ∃ out : OutMsg,
      (handleWorkerMessage c1State (WorkerMsg.errorReply "boom" "r2")).outbox
          = c1State.outbox ++ [out]
      ∧ out.dest = (7 : Nat)
      ∧ out.targetOrigin = "https://a"
      ∧ (isResultPayload out.payload = true ∨ isErrorPayload out.payload = true)
      ∧ ¬(isResultPayload out.payload = true ∧ isErrorPayload out.payload = true)
      ∧ jsMapGet "r2"
          (handleWorkerMessage c1State (WorkerMsg.errorReply "boom" "r2")).pendingRequests
          = none :=
  requestLedger_resolution_c1 c1State (WorkerMsg.errorReply "boom" "r2")
    "boom" "" "" "" "r2" ⟨7, "https://a", "pdf"⟩ (by rfl) (Or.inr rfl)

/-- C2: a worker reply (`converted` or `error`) whose requestId is not in the
ledger is a no-op: the whole coordinator state — outboxes, ledger, and
filesystem — is unchanged, and no exception is raised (the handler is a total
function returning the state itself). -/
theorem staleReply_noop_c2 (s : ConvState) (m : WorkerMsg)
    (e fro toPath fmt rid : String)
    (hreg : jsMapGet rid s.pendingRequests = none)
    (hm : m = WorkerMsg.converted fro toPath fmt rid ∨ m = WorkerMsg.errorReply e rid) :
    handleWorkerMessage s m = s := by
  rcases hm with hm | hm <;> subst hm <;> simp [handleWorkerMessage, hreg]

/-- Witness for C2: a stale `converted` reply for the unregistered id "rX"
leaves the state untouched. -/
theorem staleReply_noop_c2_witness :
    handleWorkerMessage c2State
        (WorkerMsg.converted "/tmp/input" "/tmp/output.pdf" "pdf" "rX") = c2State :=
  staleReply_noop_c2 c2State
    (WorkerMsg.converted "/tmp/input" "/tmp/output.pdf" "pdf" "rX")
    "" "/tmp/input" "/tmp/output.pdf" "pdf" "rX" (by rfl) (Or.inl rfl)

/-- C3 counterexample: registering "r" twice (via two `convertDocument`
calls) leaves the ledger mapping "r" to the SECOND registration's entry
(source 2, "https://b"), not the first one's (source 1, "https://a") —
`Map.set` overwrites, so the first registration does not win. -/
theorem register_first_wins_counterexample :
    ((convertDocument readyState [1] "pdf" "r" 1 "https://a").bind
        (fun s1 => convertDocument s1 [2] "pdf" "r" 2 "https://b")).map
        (fun s2 => jsMapGet "r" s2.pendingRequests)
      = Except.ok (some ⟨2, "https://b", "pdf"⟩)
    ∧ (⟨2, "https://b", "pdf"⟩ : PendingEntry) ≠ ⟨1, "https://a", "pdf"⟩ :=
  ⟨rfl, by decide⟩

/-- C3 amended: registering a request under a requestId that is already
present in the ledger silently OVERWRITES the existing entry — the LAST
registration wins: after any successful `convertDocument` call the ledger
entry for that requestId is the one built from that call's arguments,
regardless of what was registered before. -/
theorem register_last_wins_c3 (s : ConvState) (bytes : List Nat)
    (fmt rid torigin : String) (src : Nat)
    (hready : s.moduleReady = true) (hengine : s.hasEngine = true) :
    ∃ s1, convertDocument s bytes fmt rid src torigin = Except.ok s1
      ∧ jsMapGet rid s1.pendingRequests = some ⟨src, torigin, fmt⟩ := by
  refine ⟨{ s with
      fs := fsWrite "/tmp/input" bytes s.fs,
      pendingRequests := jsMapSet rid ⟨src, torigin, fmt⟩ s.pendingRequests,
      workerOutbox := s.workerOutbox ++
        [⟨"/tmp/input",
          "/tmp/output." ++ ((jsMapGet fmt.toLower formatExtensions).getD "pdf"),
          fmt, rid⟩] }, ?_, ?_⟩
  · simp [convertDocument, hready, hengine]
  · simp [jsMapGet_set_self]

/-- Witness for the amended C3: a second registration of "r" (source 2)
over an existing entry (source 1) succeeds and the ledger maps "r" to the
second entry. -/
theorem register_last_wins_c3_witness :
    ∃ s1, convertDocument
        { readyState with pendingRequests := [("r", ⟨1, "https://a", "pdf"⟩)] }
        [2] "pdf" "r" 2 "https://b" = Except.ok s1
      ∧ jsMapGet "r" s1.pendingRequests = some ⟨2, "https://b", "pdf"⟩ :=
  register_last_wins_c3
    { readyState with pendingRequests := [("r", ⟨1, "https://a", "pdf"⟩)] }
    [2] "pdf" "r" "https://b" 2 (by rfl) (by rfl)

/-- C4: a convert request received while `isReady()` is false (moduleReady
false or no engine handle) whose payload normalizes successfully is rejected
with the non-fatal "ZetaJS not initialized" error posted back to the sender;
it is not queued (worker outbox unchanged), no ledger entry is created, and
no staged input artifact is written to the virtual filesystem. -/
theorem convert_before_ready_rejected_c4 (w : Option (List String)) (s : ConvState)
    (d : ConvertData) (origin : String) (source : Nat) (now : String) (bytes : List Nat)
    (hw : isOriginAllowed w origin = true)
    (hnotready : s.moduleReady = false ∨ s.hasEngine = false)
    (hbuf : normalizeBuffer (pickInputBuffer d.buffer d.file) = Except.ok bytes) :
    (handleMessageEvent w s (InboundData.convert d) origin source now).outbox
        = s.outbox ++ [⟨source, getTargetOrigin origin,
            OutPayload.errorPayload "ZetaJS not initialized" d.requestId⟩]
    ∧ (handleMessageEvent w s (InboundData.convert d) origin source now).pendingRequests
        = s.pendingRequests
    ∧ (handleMessageEvent w s (InboundData.convert d) origin source now).fs = s.fs
    ∧ (handleMessageEvent w s (InboundData.convert d) origin source now).workerOutbox
        = s.workerOutbox := by
  refine ⟨?_, ?_, ?_, ?_⟩ <;>
    simp [handleMessageEvent, hw, hbuf,
      convertDocument_not_ready _ _ _ _ _ _ hnotready]

/-- Witness for C4: the spec's own end-to-end vector — a 5-byte buffer sent
as "convert" with requestId "r1" before initialization — is answered by the
not-initialized error and leaves ledger, filesystem and worker queue empty. -/
theorem convert_before_ready_rejected_c4_witness :
    (handleMessageEvent none notReadyState
        (InboundData.convert
          ⟨JsBuf.arrayBufferVal [1, 2, 3, 4, 5], JsBuf.undef, some "pdf", some "r1"⟩)
        "https://a" 3 "100").outbox
      = notReadyState.outbox ++ [⟨3, getTargetOrigin "https://a",
          OutPayload.errorPayload "ZetaJS not initialized" (some "r1")⟩]
    ∧ (handleMessageEvent none notReadyState
        (InboundData.convert
          ⟨JsBuf.arrayBufferVal [1, 2, 3, 4, 5], JsBuf.undef, some "pdf", some "r1"⟩)
        "https://a" 3 "100").pendingRequests = notReadyState.pendingRequests
    ∧ (handleMessageEvent none notReadyState
        (InboundData.convert
          ⟨JsBuf.arrayBufferVal [1, 2, 3, 4, 5], JsBuf.undef, some "pdf", some "r1"⟩)
        "https://a" 3 "100").fs = notReadyState.fs
    ∧ (handleMessageEvent none notReadyState
        (InboundData.convert
          ⟨JsBuf.arrayBufferVal [1, 2, 3, 4, 5], JsBuf.undef, some "pdf", some "r1"⟩)
        "https://a" 3 "100").workerOutbox = notReadyState.workerOutbox :=
  convert_before_ready_rejected_c4 none notReadyState
    ⟨JsBuf.arrayBufferVal [1, 2, 3, 4, 5], JsBuf.undef, some "pdf", some "r1"⟩
    "https://a" 3 "100" [1, 2, 3, 4, 5] (by rfl) (Or.inl rfl) (by rfl)

/-- C5: the Worker Handshake never sends the `ZetaHelper::run_thr_script`
directive before observing the `ZetaHelper::thr_started` signal: in every
channel trace produced by the `setupMessageHandler` onmessage switch, any
`run_thr_script` send is preceded by a `thr_started` receipt. -/
theorem handshake_script_after_thr_started_c5 (ins : List HSIncoming) (i : Nat)
    (hsend : (channelTrace ins)[i]? = some ChanEvent.sendRunThrScript) :
    ∃ j, j < i ∧ (channelTrace ins)[j]? = some (ChanEvent.recv HSIncoming.thrStarted) := by
  induction ins generalizing i with
  | nil => simp [channelTrace] at hsend
  | cons m ms ih =>
    cases m with
    | thrStarted =>
      match i with
      | 0 => simp [channelTrace, onThrPortMessage] at hsend
      | Nat.succ k =>
        exact ⟨0, Nat.succ_pos k, by simp [channelTrace, onThrPortMessage]⟩
    | worker wm =>
      match i with
      | 0 => simp [channelTrace, onThrPortMessage] at hsend
      | Nat.succ k =>
        have hsend' : (channelTrace ms)[k]? = some ChanEvent.sendRunThrScript := by
          simpa [channelTrace, onThrPortMessage] using hsend
        obtain ⟨j, hj, hget⟩ := ih k hsend'
        exact ⟨j + 1, Nat.succ_lt_succ hj,
          by simpa [channelTrace, onThrPortMessage] using hget⟩

/-- Witness for C5: in the trace of [worker ready, thr_started] the send at
index 2 is preceded by the thr_started receipt at index 1. -/
theorem handshake_script_after_thr_started_c5_witness :
    ∃ j, j < 2
      ∧ (channelTrace [HSIncoming.worker WorkerMsg.ready, HSIncoming.thrStarted])[j]?
          = some (ChanEvent.recv HSIncoming.thrStarted) :=
  handshake_script_after_thr_started_c5
    [HSIncoming.worker WorkerMsg.ready, HSIncoming.thrStarted] 2 (by rfl)

/-- C7 counterexample: a convert request whose payload is present but falsy
(e.g. `buffer: 0`) — hence neither an ArrayBuffer, nor a typed view, nor an
object with an ArrayBuffer-valued `.buffer` — is answered with the
"No document buffer provided" error, which is not the "invalid buffer type"
error the claim promises. -/
theorem invalid_buffer_message_counterexample :
    (handleMessageEvent none readyState
        (InboundData.convert ⟨JsBuf.falsyVal, JsBuf.undef, none, some "r9"⟩)
        "https://a" 1 "100").outbox
      = [⟨1, "https://a", OutPayload.errorPayload "No document buffer provided" (some "r9")⟩]
    ∧ "No document buffer provided"
        ≠ "Invalid buffer type: expected ArrayBuffer or TypedArray" :=
  ⟨rfl, by decide⟩

/-- C7 amended: for every convert request whose picked payload
(`data.buffer || data.file`) has none of the three accepted shapes, exactly
one error reply is posted before any ledger entry is created — the ledger,
filesystem and worker queue are unchanged; the error text is
"Invalid buffer type: expected ArrayBuffer or TypedArray" when the payload
is truthy, and "No document buffer provided" when it is falsy or absent. -/
theorem malformed_payload_no_ledger_entry_c7 (w : Option (List String)) (s : ConvState)
    (d : ConvertData) (origin : String) (source : Nat) (now : String)
    (hw : isOriginAllowed w origin = true)
    (hshape : isAcceptedShape (pickInputBuffer d.buffer d.file) = false) :
    (handleMessageEvent w s (InboundData.convert d) origin source now).outbox
        = s.outbox ++ [⟨source, getTargetOrigin origin,
            OutPayload.errorPayload
              (if jsTruthy (pickInputBuffer d.buffer d.file) then
                "Invalid buffer type: expected ArrayBuffer or TypedArray"
              else "No document buffer provided") d.requestId⟩]
    ∧ (handleMessageEvent w s (InboundData.convert d) origin source now).pendingRequests
        = s.pendingRequests
    ∧ (handleMessageEvent w s (InboundData.convert d) origin source now).fs = s.fs
    ∧ (handleMessageEvent w s (InboundData.convert d) origin source now).workerOutbox
        = s.workerOutbox := by
  cases hp : pickInputBuffer d.buffer d.file <;>
    simp [hp, isAcceptedShape] at hshape ⊢ <;>
    refine ⟨?_, ?_, ?_, ?_⟩ <;>
    simp [handleMessageEvent, hw, hp, normalizeBuffer, jsTruthy]

/-- Witness for the amended C7: a truthy payload of an unaccepted shape is
answered with the invalid-buffer-type error and the ledger stays empty. -/
theorem malformed_payload_no_ledger_entry_c7_witness :
    (handleMessageEvent none readyState
        (InboundData.convert ⟨JsBuf.otherTruthy, JsBuf.undef, none, some "r8"⟩)
        "https://a" 1 "100").outbox
      = readyState.outbox ++ [⟨1, getTargetOrigin "https://a",
          OutPayload.errorPayload
            (if jsTruthy (pickInputBuffer JsBuf.otherTruthy JsBuf.undef) then
              "Invalid buffer type: expected ArrayBuffer or TypedArray"
            else "No document buffer provided") (some "r8")⟩]
    ∧ (handleMessageEvent none readyState
        (InboundData.convert ⟨JsBuf.otherTruthy, JsBuf.undef, none, some "r8"⟩)
        "https://a" 1 "100").pendingRequests = readyState.pendingRequests
    ∧ (handleMessageEvent none readyState
        (InboundData.convert ⟨JsBuf.otherTruthy, JsBuf.undef, none, some "r8"⟩)
        "https://a" 1 "100").fs = readyState.fs
    ∧ (handleMessageEvent none readyState
        (InboundData.convert ⟨JsBuf.otherTruthy, JsBuf.undef, none, some "r8"⟩)
        "https://a" 1 "100").workerOutbox = readyState.workerOutbox :=
  malformed_payload_no_ledger_entry_c7 none readyState
    ⟨JsBuf.otherTruthy, JsBuf.undef, none, some "r8"⟩ "https://a" 1 "100"
    (by rfl) (by rfl)

/-- C9: when the payload of a convert request is a typed view over an
ArrayBuffer, the bytes staged at /tmp/input are the bytes of the ENTIRE
underlying buffer, not the view's own byte range: for a valid view with a
nonzero byteOffset or a byteLength shorter than its buffer, the staged byte
count strictly exceeds the view's byteLength. -/
theorem typedView_stages_whole_buffer_c9 (w : Option (List String)) (s : ConvState)
    (d : ConvertData) (origin : String) (source : Nat) (now : String)
    (buf : List Nat) (off len : Nat)
    (hw : isOriginAllowed w origin = true)
    (hready : s.moduleReady = true) (hengine : s.hasEngine = true)
    (hbuffer : d.buffer = JsBuf.typedView buf off len)
    (hvalid : off + len ≤ buf.length)
    (hproper : 0 < off ∨ len < buf.length) :
    fsRead "/tmp/input"
        (handleMessageEvent w s (InboundData.convert d) origin source now).fs = some buf
    ∧ (viewBytes buf off len).length = len
    ∧ len < buf.length := by
  refine ⟨?_, ?_, ?_⟩
  · simp [handleMessageEvent, hw, hbuffer, pickInputBuffer, jsTruthy, normalizeBuffer,
      convertDocument, hready, hengine, fsRead, fsWrite, jsMapGet_set_self]
  · simp [viewBytes]
    omega
  · omega

/-- Witness for C9: a view of byteLength 2 at byteOffset 1 over a 4-byte
buffer stages all 4 buffer bytes, more than the 2 the view covers. -/
theorem typedView_stages_whole_buffer_c9_witness :
    fsRead "/tmp/input"
        (handleMessageEvent none readyState
          (InboundData.convert
            ⟨JsBuf.typedView [10, 20, 30, 40] 1 2, JsBuf.undef, some "pdf", some "r7"⟩)
          "https://a" 4 "100").fs = some [10, 20, 30, 40]
    ∧ (viewBytes [10, 20, 30, 40] 1 2).length = 2
    ∧ 2 < ([10, 20, 30, 40] : List Nat).length :=
  typedView_stages_whole_buffer_c9 none readyState
    ⟨JsBuf.typedView [10, 20, 30, 40] 1 2, JsBuf.undef, some "pdf", some "r7"⟩
    "https://a" 4 "100" [10, 20, 30, 40] 1 2
    (by rfl) (by rfl) (by rfl) (by rfl) (by decide) (Or.inl (by decide))

/-- C10: the listener catch path posts `data.requestId` verbatim: when the
caller omits requestId, a not-initialized failure (which occurs after the id
was generated) is reported with an undefined (`none`) requestId, whereas in
a ready coordinator the same request registers its ledger entry under the
generated id `now` and emits the worker command carrying `now`, so the
success reply would carry the generated id. -/
theorem catch_requestId_verbatim_c10 (w : Option (List String)) (s sR : ConvState)
    (d : ConvertData) (origin : String) (source : Nat) (now : String) (bytes : List Nat)
    (hw : isOriginAllowed w origin = true)
    (hid : d.requestId = none)
    (hbuf : normalizeBuffer (pickInputBuffer d.buffer d.file) = Except.ok bytes)
    (hnotready : s.moduleReady = false ∨ s.hasEngine = false)
    (hready : sR.moduleReady = true) (hengine : sR.hasEngine = true) :
    (handleMessageEvent w s (InboundData.convert d) origin source now).outbox
        = s.outbox ++ [⟨source, getTargetOrigin origin,
            OutPayload.errorPayload "ZetaJS not initialized" none⟩]
    ∧ jsMapGet now
        (handleMessageEvent w sR (InboundData.convert d) origin source now).pendingRequests
        = some ⟨source, getTargetOrigin origin, jsOrDefault d.format "pdf"⟩
    ∧ (handleMessageEvent w sR (InboundData.convert d) origin source now).workerOutbox
        = sR.workerOutbox ++
          [⟨"/tmp/input",
            "/tmp/output." ++
              ((jsMapGet (jsOrDefault d.format "pdf").toLower formatExtensions).getD "pdf"),
            jsOrDefault d.format "pdf", now⟩] := by
  refine ⟨?_, ?_, ?_⟩
  · simp [handleMessageEvent, hw, hbuf, hid,
      convertDocument_not_ready _ _ _ _ _ _ hnotready]
  · simp [handleMessageEvent, hw, hbuf, hid, convertDocument, hready, hengine,
      jsOrDefault, jsMapGet_set_self]
  · simp [handleMessageEvent, hw, hbuf, hid, convertDocument, hready, hengine,
      jsOrDefault]

/-- Witness for C10: a requestId-less convert request is answered before
Ready with an error whose requestId is `none`, while a ready coordinator
registers the same request under the generated id "1700". -/
theorem catch_requestId_verbatim_c10_witness :
    (handleMessageEvent none notReadyState
        (InboundData.convert ⟨JsBuf.arrayBufferVal [5], JsBuf.undef, none, none⟩)
        "https://a" 6 "1700").outbox
      = notReadyState.outbox ++ [⟨6, getTargetOrigin "https://a",
          OutPayload.errorPayload "ZetaJS not initialized" none⟩]
    ∧ jsMapGet "1700"
        (handleMessageEvent none readyState
          (InboundData.convert ⟨JsBuf.arrayBufferVal [5], JsBuf.undef, none, none⟩)
          "https://a" 6 "1700").pendingRequests
        = some ⟨6, getTargetOrigin "https://a", jsOrDefault none "pdf"⟩
    ∧ (handleMessageEvent none readyState
        (InboundData.convert ⟨JsBuf.arrayBufferVal [5], JsBuf.undef, none, none⟩)
        "https://a" 6 "1700").workerOutbox
      = readyState.workerOutbox ++
        [⟨"/tmp/input",
          "/tmp/output." ++
            ((jsMapGet (jsOrDefault none "pdf").toLower formatExtensions).getD "pdf"),
          jsOrDefault none "pdf", "1700"⟩] :=
  catch_requestId_verbatim_c10 none notReadyState readyState
    ⟨JsBuf.arrayBufferVal [5], JsBuf.undef, none, none⟩ "https://a" 6 "1700" [5]
    (by rfl) (by rfl) (by rfl) (Or.inl rfl) (by rfl) (by rfl)

end DocConverter
